import Mathlib

/-!
Shallow embedding of `wrouesnel/gitlab-tools` (Python) for verification.

The embedding models, from the source:
  * `src/gitlab_tools/cli.py` — `_recursive_group_select`, the `repos`
    selection group, `list` output, `delete_repos`, and the two clone
    commands (`clone-organization` / `organization clone`);
  * `src/gitlab_tools/uiclient/uiclient.py` — `gitlab_get_csrf`,
    `GitlabUIClient.__init__`, `_do_login`, `_check_logged_in`, `_request`,
    `_get` and `list_repository_mirrors`, driven by a scripted list of
    server responses (HTTP is the environment, so a run is a function of
    the response script; loops that the source leaves unbounded take a
    fuel argument, and fuel exhaustion marks divergence);
  * `src/gitlab_tools/config.py` — `Secret.__init__` and the
    `Config.user_password` property, with the OS keyring as an explicit
    association list that survives exceptions (it is external state).

Machine-level details that cannot influence any statement proved here are
abstracted: HTML bodies are reduced to the features the code inspects
(meta tags, the login-body marker, the mirror-settings section), the TOTP
code value is opaque, and `Secret`'s random salt and sha256 display hash
are dropped (only the stored `_value`, and the exception raised while
hashing a `None` value, are observable in the claims).
-/

namespace GitlabTools

/-! ## cli.py: `_recursive_group_select` (lines 115–134)

Groups are identified by their ids (`Nat`); the server's subgroup listing
is a function from a group id to the list of its subgroup ids
(`g.subgroups.list(get_all=True)` followed by `c.groups.get(...)`, which
resolves an id to the group itself).  The Python `while True` loop has no
bound, so the embedding takes fuel counting loop iterations and returns
`none` when the loop has not exited within the given fuel. -/

/-- One `while True` iteration state: `selected` is `groups_selected`,
`groups` is the current frontier.  Each fuel step runs the loop body once:
it collects the subgroups of every frontier group (in order), breaks when
none were found, and otherwise appends them all to the selection. -/
def recursiveGroupSelectGo (subgroups : Nat → List Nat) :
    Nat → List Nat → List Nat → Option (List Nat)
  | 0, _, _ => none
  | fuel + 1, selected, groups =>
    let new_groups := groups.flatMap subgroups
    if new_groups.isEmpty then some selected
    else recursiveGroupSelectGo subgroups fuel (selected ++ new_groups) new_groups

/-- Embedding of `_recursive_group_select(g)`: starts with
`groups_selected = [g]` and frontier `[g]`. -/
def recursiveGroupSelect (subgroups : Nat → List Nat) (fuel : Nat) (g : Nat) :
    Option (List Nat) :=
  recursiveGroupSelectGo subgroups fuel [g] [g]

/-- Diamond-shaped subgroup fixture: group 0 has subgroups 1 and 2, both of
which list subgroup 3 (reachable via two parent paths). -/
def diamondSubgroups : Nat → List Nat
  | 0 => [1, 2]
  | 1 => [3]
  | 2 => [3]
  | _ => []

/-- Two-cycle subgroup fixture: 0 lists 1 and 1 lists 0. -/
def cycleSubgroups : Nat → List Nat
  | 0 => [1]
  | 1 => [0]
  | _ => []

/-! ## cli.py: `repos` selection (lines 198–241) and `list` (244–257) -/

/-- Project fixture: the attributes the `repos` pipeline reads. -/
structure Project where
  name : String
  path_with_namespace : String
deriving DecidableEq, Repr

/-- Embedding of the project-selection loop of `repos` (cli.py lines
220–226).  `nameMatches p` stands for `repo_regex.match(p.attributes["name"])
is not None`; `groupProjects` is, per selected group in order, the paged
project listing of that group.  The source initialises `projects = []` and
then, inside `for g in groups_selected`, rebinds
`projects = [...comprehension...]`, so each iteration overwrites the
previous one instead of extending it — the fold ignores its accumulator
exactly as the source does. -/
def reposSelect (nameMatches : String → Bool) (groupProjects : List (List Project)) :
    List Project :=
  groupProjects.foldl (fun _ ps => ps.filter (fun p => nameMatches p.name)) []

/-- Selection named by the specification's words (for comparison with
`reposSelect`): the projects of every selected group whose name matches,
groups in order, each group's projects in listing order. -/
def reposSelectSpec (nameMatches : String → Bool) (groupProjects : List (List Project)) :
    List Project :=
  groupProjects.flatMap (fun ps => ps.filter (fun p => nameMatches p.name))

/-- Embedding of `list_repos` with `--format list` (cli.py lines 249–251):
prints `r.attributes["name"]` for each selected repo, in order. -/
def listReposListFormat (selected : List Project) : List String :=
  selected.map (fun p => p.name)

/-! ## cli.py: `delete_repos` (lines 296–330) -/

/-- Repo fixture for `delete_repos`: name and id attributes. -/
structure Repo where
  name : String
  id : Nat
deriving DecidableEq, Repr

/-- Observable effects of one `delete_repos` run, in order. -/
inductive DeleteEffect
  | print (name : String)
  | deleteProject (id : Nat)
  | logDryRun (name : String)
deriving DecidableEq, Repr

/-- Embedding of `delete_repos(obj, doit, seriously, quiet)` (cli.py lines
316–330): for each selected repo, print its name unless `quiet`; then if
`doit and seriously`, look up and delete the project by id, else log
`DRY RUN - NO ACTION`. -/
def delete_repos (repos : List Repo) (doit seriously quiet : Bool) :
    List DeleteEffect :=
  repos.flatMap fun r =>
    (if quiet then [] else [DeleteEffect.print r.name]) ++
      (if doit && seriously then [DeleteEffect.deleteProject r.id]
       else [DeleteEffect.logDryRun r.name])

/-- The project ids actually deleted by a run. -/
def deletedIds (effects : List DeleteEffect) : List Nat :=
  effects.filterMap fun e =>
    match e with
    | DeleteEffect.deleteProject i => some i
    | _ => none

/-- The repos logged as dry-run (no action taken) by a run. -/
def dryRunNames (effects : List DeleteEffect) : List String :=
  effects.filterMap fun e =>
    match e with
    | DeleteEffect.logDryRun n => some n
    | _ => none

/-! ## uiclient.py: responses, CSRF scraping, and the session client

A server response is reduced to the features the client code inspects:
its HTTP status code, its `<meta>` tags (for `gitlab_get_csrf`), whether
its body contains a `div` of class `login-body` (for `_check_logged_in`),
and the `section` of class `project-mirror-settings` if any (for
`list_repository_mirrors`). -/

/-- Attributes of one `<meta>` tag: the `name` and `content` attributes,
each present or absent (`meta_tag.attrs` keys). -/
structure MetaTag where
  nameAttr : Option String
  contentAttr : Option String
deriving DecidableEq, Repr

/-- A scripted server response, reduced to what the client inspects. -/
structure Response where
  status : Nat
  metaTags : List MetaTag
  hasLoginBody : Bool
  mirrorSection : Option String
deriving DecidableEq, Repr

/-- The fold inside `gitlab_get_csrf` (uiclient.py lines 20–27): walk the
meta tags; whenever a tag has both a `name` and a `content` attribute,
record its content as the csrf param if its name is `csrf-param`, and as
the csrf token if its name is `csrf-token` (later tags overwrite earlier
ones). -/
def csrfStep (acc : Option String × Option String) (t : MetaTag) :
    Option String × Option String :=
  match t.nameAttr, t.contentAttr with
  | some n, some c =>
    ((if n = "csrf-param" then some c else acc.1),
     (if n = "csrf-token" then some c else acc.2))
  | _, _ => acc

/-- The whole scanning loop of `gitlab_get_csrf`. -/
def csrfScan (tags : List MetaTag) : Option String × Option String :=
  tags.foldl csrfStep (none, none)

/-- Embedding of `gitlab_get_csrf(soup)` (uiclient.py lines 18–34): the
returned dict `{csrf_param: csrf_token}` when both were found, else the
empty dict — modelled as `some (param, token)` / `none`. -/
def gitlab_get_csrf (tags : List MetaTag) : Option (String × String) :=
  match csrfScan tags with
  | (some p, some t) => some (p, t)
  | _ => none

/-- Which form a request carries (`login_data`, `otp_data`, or none). -/
inductive FormKind
  | noForm
  | credentials
  | otpAttempt
deriving DecidableEq, Repr

/-- One HTTP request issued by the client: method, target URL, the csrf
pair included in its form data (if any), and which form it carries. -/
structure Request where
  method : String
  url : String
  formCsrf : Option (String × String)
  kind : FormKind
deriving DecidableEq, Repr

/-- Errors of a run.  `loginFailedOtpNotSupplied` and
`loginFailedDespiteOtp` are the two `ErrorGitlabLoginFailed` raises of
`_do_login`; `scriptExhausted` and `fuelExhausted` are artifacts of the
scripted embedding (the scripted responses ran out, or an unbounded
source loop did not exit within the given fuel — i.e. divergence). -/
inductive UIError
  | loginFailedOtpNotSupplied
  | loginFailedDespiteOtp
  | scriptExhausted
  | fuelExhausted
deriving DecidableEq, Repr

/-- Whether an error is an `ErrorGitlabLoginFailed` exception. -/
def UIError.isLoginFailed : UIError → Bool
  | UIError.loginFailedOtpNotSupplied => true
  | UIError.loginFailedDespiteOtp => true
  | _ => false

/-- Embedding of `GitlabUIClient` construction state (uiclient.py lines
44–61).  `otp` mirrors `self.otp`, which `_do_login` compares against
`None`; a TOTP object is reduced to its seed. -/
structure GitlabUIClient where
  base_url : String
  username : String
  password : String
  otp : Option String
deriving DecidableEq, Repr

/-- Embedding of `GitlabUIClient.__init__(server_url, username, password,
otp_secret, ...)`: `self.otp = pyotp.TOTP(otp_secret)` always constructs a
TOTP object, whatever the seed, so `otp` is always `some otp_secret`. -/
def GitlabUIClient.new (server_url username password otp_secret : String) :
    GitlabUIClient :=
  { base_url := server_url, username := username, password := password,
    otp := some otp_secret }

/-- Mutable run state: the scripted responses not yet consumed, the
client's `self._csrf_data` (`none` is the empty dict), the chronological
trace of requests issued so far, and the number of completed
`_do_login` traversals. -/
structure UIState where
  script : List Response
  csrf_data : Option (String × String)
  trace : List Request
  logins : Nat
deriving DecidableEq, Repr

/-- Raw `requests.Session` call: issue a request (appending it to the
trace) and consume the next scripted response.  Does not touch
`_csrf_data`.  Errors (here and below) carry the state at the raise, since
the requests already issued and the responses already consumed are real
side effects that an exception does not undo. -/
def sessionRequest (kind : FormKind) (method url : String)
    (formCsrf : Option (String × String)) (s : UIState) :
    Except (UIError × UIState) (Response × UIState) :=
  match s.script with
  | [] => Except.error (UIError.scriptExhausted, s)
  | r :: rest =>
    Except.ok (r, { s with script := rest,
                           trace := s.trace ++ [⟨method, url, formCsrf, kind⟩] })

/-- The fixed login endpoint hard-coded at uiclient.py lines 65, 78
and 92. -/
def signInUrl : String := "https://gitlab.com/users/sign_in"

/-- Embedding of `_do_login` (uiclient.py lines 63–98): fetch the sign-in
page, scrape its csrf pair, post the credentials form (with the csrf pair
merged in) without following redirects; a 302 means success.  Otherwise,
if `self.otp` is `None` raise `ErrorGitlabLoginFailed`; else scrape the
re-rendered page's csrf pair, post the OTP form, and succeed on 302 or
raise `ErrorGitlabLoginFailed`.  Completed traversals bump `logins`. -/
def doLogin (c : GitlabUIClient) (s : UIState) :
    Except (UIError × UIState) UIState :=
  match sessionRequest FormKind.noForm "GET" signInUrl none s with
  | Except.error e => Except.error e
  | Except.ok (r, s) =>
    let s := { s with csrf_data := gitlab_get_csrf r.metaTags }
    match sessionRequest FormKind.credentials "POST" signInUrl s.csrf_data s with
    | Except.error e => Except.error e
    | Except.ok (r, s) =>
      if r.status = 302 then Except.ok { s with logins := s.logins + 1 }
      else
        match c.otp with
        | none => Except.error (UIError.loginFailedOtpNotSupplied, s)
        | some _ =>
          let s := { s with csrf_data := gitlab_get_csrf r.metaTags }
          match sessionRequest FormKind.otpAttempt "POST" signInUrl s.csrf_data s with
          | Except.error e => Except.error e
          | Except.ok (r, s) =>
            if r.status = 302 then Except.ok { s with logins := s.logins + 1 }
            else Except.error (UIError.loginFailedDespiteOtp, s)

/-- Embedding of `_check_logged_in(r)` (uiclient.py lines 100–109):
`true` when the response does not render the login form. -/
def checkLoggedIn (r : Response) : Bool := !r.hasLoginBody

/-- Embedding of `_request(method, url)` (uiclient.py lines 111–118):
issue the request through the session, then unconditionally replace
`self._csrf_data` with the scrape of the response. -/
def uiRequest (method url : String) (s : UIState) :
    Except (UIError × UIState) (Response × UIState) :=
  match sessionRequest FormKind.noForm method url none s with
  | Except.error e => Except.error e
  | Except.ok (r, s) =>
    Except.ok (r, { s with csrf_data := gitlab_get_csrf r.metaTags })

/-- The `while not self._check_logged_in(r)` loop of `_get` (uiclient.py
lines 123–125): relogin and refetch until the response no longer renders
the login page.  The source loop is unbounded; fuel counts its
iterations. -/
def uiGetLoop (c : GitlabUIClient) (url : String) :
    Nat → Response → UIState → Except (UIError × UIState) (Response × UIState)
  | 0, r, s =>
    if checkLoggedIn r then Except.ok (r, s)
    else Except.error (UIError.fuelExhausted, s)
  | fuel + 1, r, s =>
    if checkLoggedIn r then Except.ok (r, s)
    else
      match doLogin c s with
      | Except.error e => Except.error e
      | Except.ok s =>
        match uiRequest "GET" url s with
        | Except.error e => Except.error e
        | Except.ok (r, s) => uiGetLoop c url fuel r s

/-- Embedding of `_get(url)` (uiclient.py lines 120–126). -/
def uiGet (c : GitlabUIClient) (url : String) (fuel : Nat) (s : UIState) :
    Except (UIError × UIState) (Response × UIState) :=
  match uiRequest "GET" url s with
  | Except.error e => Except.error e
  | Except.ok (r, s) => uiGetLoop c url fuel r s

/-- The second `while not self._check_logged_in(r)` loop of
`list_repository_mirrors` (uiclient.py lines 133–135): relogin and refetch
with a raw `self.session.get` (no csrf rescan) until logged in, then
locate the `project-mirror-settings` section (the source only logs it; the
located section is the run's observable). -/
def mirrorLoop (c : GitlabUIClient) (url : String) :
    Nat → Response → UIState → Except (UIError × UIState) (Option String × UIState)
  | 0, r, s =>
    if checkLoggedIn r then Except.ok (r.mirrorSection, s)
    else Except.error (UIError.fuelExhausted, s)
  | fuel + 1, r, s =>
    if checkLoggedIn r then Except.ok (r.mirrorSection, s)
    else
      match doLogin c s with
      | Except.error e => Except.error e
      | Except.ok s =>
        match sessionRequest FormKind.noForm "GET" url none s with
        | Except.error e => Except.error e
        | Except.ok (r, s) => mirrorLoop c url fuel r s

/-- The settings-page URL built at uiclient.py line 130. -/
def settingsUrl (c : GitlabUIClient) (repo_name : String) : String :=
  c.base_url ++ "/" ++ repo_name ++ "/settings/repository"

/-- Embedding of `list_repository_mirrors(repo_name)` (uiclient.py lines
128–141): `_get` the settings page, then run the second (raw) relogin
loop, then locate the mirror-settings section. -/
def list_repository_mirrors (c : GitlabUIClient) (repo_name : String)
    (fuel1 fuel2 : Nat) (s : UIState) :
    Except (UIError × UIState) (Option String × UIState) :=
  match uiGet c (settingsUrl c repo_name) fuel1 s with
  | Except.error e => Except.error e
  | Except.ok (r, s) => mirrorLoop c (settingsUrl c repo_name) fuel2 r s

/-- Number of form submissions (POSTs to the login endpoint) in a trace. -/
def countSubmissions (tr : List Request) : Nat :=
  (tr.filter (fun q => q.method = "POST")).length

/-! ## cli.py: the clone commands (lines 56–81 and 137–188)

The filesystem is an explicit list of existing paths; `os.path.exists`
is membership, `os.makedirs(..., exist_ok=True)` and a successful
`git.Repo.clone_from` add the created path.  Paths are built exactly as
the source builds them with `os.path.join` / `os.path.relpath` (POSIX
separator, no normalisation, matching `os.path.join`'s plain
concatenation for relative components). -/

/-- Observable effects of a clone run, in order. -/
inductive CloneEffect
  | makedirs (path : String)
  | cloneInto (path : String) (url : String)
  | foundExisting (path : String)
deriving DecidableEq, Repr

/-- Path components of a `/`-separated path (empty components dropped). -/
def splitPath (s : String) : List String :=
  (s.splitOn "/").filter (fun c => ¬ c = "")

/-- Drop the common leading components of two component lists. -/
def dropCommonLead : List String → List String → List String × List String
  | a :: as, b :: bs =>
    if a = b then dropCommonLead as bs else (a :: as, b :: bs)
  | as, bs => (as, bs)

/-- Embedding of `os.path.relpath(path, start)` for the POSIX relative
paths the source feeds it (group full paths). -/
def relpath (path start : String) : String :=
  let pr := dropCommonLead (splitPath path) (splitPath start)
  let parts := pr.2.map (fun _ => "..") ++ pr.1
  if parts.isEmpty then "." else String.intercalate "/" parts

/-- Embedding of `os.path.join(a, b)` for a non-empty `a` without a
trailing separator and a relative `b`, which is how the source calls
it. -/
def pathJoin (a b : String) : String := a ++ "/" ++ b

/-- The per-repository loop of `gitlab_org_clone` (cli.py lines 73–79):
for each `(path, http_url_to_repo)` pair, clone into the path named by the
repo's `path` attribute unless that path already exists.  Returns the
filesystem after the run and the effects in order. -/
def orgCloneRepos (fs : List String) :
    List (String × String) → List String × List CloneEffect
  | [] => (fs, [])
  | (name, link) :: rest =>
    if name ∈ fs then
      let r := orgCloneRepos fs rest
      (r.1, CloneEffect.foundExisting name :: r.2)
    else
      let r := orgCloneRepos (name :: fs) rest
      (r.1, CloneEffect.cloneInto name link :: r.2)

/-- Embedding of the `clone-organization` command body (`gitlab_org_clone`,
cli.py lines 59–81), given the projects of the target group. -/
def gitlab_org_clone (fs : List String) (projects : List (String × String)) :
    List String × List CloneEffect :=
  orgCloneRepos fs projects

/-- Group fixture for `organization clone`: the group's `full_path`
attribute and its paged project listing as `(path, http_url_to_repo)`
pairs. -/
structure GroupFixture where
  full_path : String
  projects : List (String × String)
deriving DecidableEq, Repr

/-- The per-repository loop of `clone` (cli.py lines 178–186): for each
project, derive `clone_path = os.path.join(group_output_dir, name)` and
clone into it unless it already exists. -/
def cloneProjects (group_output_dir : String) (fs : List String) :
    List (String × String) → List String × List CloneEffect
  | [] => (fs, [])
  | (name, link) :: rest =>
    let clone_path := pathJoin group_output_dir name
    if clone_path ∈ fs then
      let r := cloneProjects group_output_dir fs rest
      (r.1, CloneEffect.foundExisting clone_path :: r.2)
    else
      let r := cloneProjects group_output_dir (clone_path :: fs) rest
      (r.1, CloneEffect.cloneInto clone_path link :: r.2)

/-- The per-group loop of `clone` (cli.py lines 164–186): derive the
group's output directory from its full path relative to the root group's
full path, create it, then clone the group's projects. -/
def cloneGroups (output_dir root : String) (fs : List String) :
    List GroupFixture → List String × List CloneEffect
  | [] => (fs, [])
  | g :: gs =>
    let dir := pathJoin output_dir (relpath g.full_path root)
    let rp := cloneProjects dir (dir :: fs) g.projects
    let rg := cloneGroups output_dir root rp.1 gs
    (rg.1, CloneEffect.makedirs dir :: (rp.2 ++ rg.2))

/-- Embedding of the `organization clone` command body (`clone`, cli.py
lines 148–188): create the output directory, then run the per-group loop
over the selected groups (the root's own full path is the relpath
base). -/
def cloneCommand (output_dir root : String) (fs : List String)
    (groups : List GroupFixture) : List String × List CloneEffect :=
  let r := cloneGroups output_dir root (output_dir :: fs) groups
  (r.1, CloneEffect.makedirs output_dir :: r.2)

/-! ## config.py: `Secret.__init__` (lines 78–89) and
`Config.user_password` (lines 172–183)

The keyring is an association list from `(service, user)` to the stored
secret; `keyring.get_password` is first-match lookup, `keyring.set_password`
prepends (overwriting on lookup).  `getpass.getpass` is the run's `prompt`
parameter.  A `Secret` keeps only its `_value`; the random salt and the
sha256 display hash cannot be observed by any claim, but the
`AttributeError` that `self._value.encode("utf8")` raises when the value
is `None` is modelled. -/

/-- Python-level exceptions reachable in the modelled config code. -/
inductive PyError
  | attributeErrorNoneEncode
deriving DecidableEq, Repr

/-- A constructed `Secret`, reduced to its stored `_value`. -/
structure Secret where
  value : String
deriving DecidableEq, Repr

/-- Embedding of `Secret.__init__(value)` (config.py lines 78–89): when
`value` is `None`, `self._value.encode("utf8")` raises an
`AttributeError` instead of returning; otherwise the secret wraps the
value. -/
def Secret.init (value : Option String) : Except PyError Secret :=
  match value with
  | none => Except.error PyError.attributeErrorNoneEncode
  | some v => Except.ok { value := v }

/-- The OS keyring as external state. -/
def Keyring : Type := List ((String × String) × String)

/-- Embedding of `keyring.get_password(service, user)`. -/
def keyringGet (kr : Keyring) (service user : String) : Option String :=
  match kr.find? (fun e => e.1 = (service, user)) with
  | some e => some e.2
  | none => none

/-- Embedding of `keyring.set_password(service, user, value)`. -/
def keyringSet (kr : Keyring) (service user value : String) : Keyring :=
  ((service, user), value) :: kr

/-- Embedding of the `Config.user_password` property body (config.py lines
172–183) for a given service name and user: read the stored password; if
it is `None` or empty, prompt, write the prompted value to the keyring,
and read it back into the local `otp_secret` variable — then
`return Secret(user_password)` with `user_password` still holding the
stale pre-prompt value.  Returns the keyring after the run (it survives a
raise, being external state) and the outcome. -/
def user_password (kr : Keyring) (prompt service user : String) :
    Keyring × Except PyError Secret :=
  let stored := keyringGet kr service user
  if stored = none ∨ stored = some "" then
    let kr2 := keyringSet kr service user prompt
    (kr2, Secret.init stored)
  else
    (kr, Secret.init stored)

/-! ## Fixtures and result projections used by the statements -/

/-- A page response that does not render the login form. -/
def okPage : Response :=
  { status := 200, metaTags := [], hasLoginBody := false, mirrorSection := none }

/-- A page response rendering the login form (`div` of class
`login-body`). -/
def loginRenderedPage : Response :=
  { status := 200, metaTags := [], hasLoginBody := true, mirrorSection := none }

/-- A redirect response with an empty body. -/
def redirectResponse : Response :=
  { status := 302, metaTags := [], hasLoginBody := false, mirrorSection := none }

/-- A sign-in page response carrying csrf meta tags `(P1, T1)`. -/
def signinPageWithCsrf : Response :=
  { status := 200,
    metaTags := [⟨some "csrf-param", some "P1"⟩, ⟨some "csrf-token", some "T1"⟩],
    hasLoginBody := true, mirrorSection := none }

/-- A redirect response whose body nevertheless carries a fresh complete
csrf pair `(P2, T2)`. -/
def redirectWithCsrf : Response :=
  { status := 302,
    metaTags := [⟨some "csrf-param", some "P2"⟩, ⟨some "csrf-token", some "T2"⟩],
    hasLoginBody := false, mirrorSection := none }

/-- A client configured against a non-gitlab.com base URL. -/
def exampleClient : GitlabUIClient :=
  GitlabUIClient.new "https://example.com" "user" "pw" "seed"

/-- The `GET` of the sign-in page issued at the start of `_do_login`. -/
def signInGetReq : Request :=
  { method := "GET", url := signInUrl, formCsrf := none, kind := FormKind.noForm }

/-- The credentials `POST` of `_do_login`, carrying the csrf pair merged
into `login_data`. -/
def credSubmitReq (cs : Option (String × String)) : Request :=
  { method := "POST", url := signInUrl, formCsrf := cs, kind := FormKind.credentials }

/-- The OTP `POST` of `_do_login`, carrying the csrf pair merged into
`otp_data`. -/
def otpSubmitReq (cs : Option (String × String)) : Request :=
  { method := "POST", url := signInUrl, formCsrf := cs, kind := FormKind.otpAttempt }

/-- State at the end of a `doLogin` run, whether it returned or raised
(requests already issued are real side effects). -/
def loginEndState : Except (UIError × UIState) UIState → UIState
  | Except.error e => e.2
  | Except.ok s => s

/-- The error of a `doLogin` outcome, if any. -/
def loginErr : Except (UIError × UIState) UIState → Option UIError
  | Except.error e => some e.1
  | Except.ok _ => none

/-- Completed login traversals visible in a `_get` outcome. -/
def fetchLogins : Except (UIError × UIState) (Response × UIState) → Option Nat
  | Except.error _ => none
  | Except.ok rs => some rs.2.logins

/-! ## Theorems -/

/-- On the two-cycle fixture the `while True` frontier alternates between
`[0]` and `[1]`, never emptying, so the loop body never breaks for any
number of iterations. -/
lemma cycleGo_none (fuel : Nat) : ∀ sel : List Nat,
    recursiveGroupSelectGo cycleSubgroups fuel sel [0] = none ∧
    recursiveGroupSelectGo cycleSubgroups fuel sel [1] = none := by
  induction fuel with
  | zero => intro sel; exact ⟨rfl, rfl⟩
  | succ n ih =>
    intro sel
    constructor
    · show recursiveGroupSelectGo cycleSubgroups (n + 1) sel [0] = none
      simpa [recursiveGroupSelectGo, cycleSubgroups] using (ih (sel ++ [1])).2
    · show recursiveGroupSelectGo cycleSubgroups (n + 1) sel [1] = none
      simpa [recursiveGroupSelectGo, cycleSubgroups] using (ih (sel ++ [0])).1

/-- C2: the claim "for every subgroup graph, including diamond-shaped or
cyclic ones, `_recursive_group_select` terminates and returns each
subgroup exactly once" fails on the code: the loop keeps no visited set,
so on the diamond fixture (0 → 1, 0 → 2, 1 → 3, 2 → 3) the shared
subgroup 3 is returned twice, and on the two-cycle fixture the loop never
exits regardless of the iteration budget. -/
theorem recursive_group_select_diamond_duplicates_and_cycle_diverges :
    recursiveGroupSelect diamondSubgroups 5 0 = some [0, 1, 2, 3, 3]
    ∧ List.count 3 [0, 1, 2, 3, 3] = 2
    ∧ ∀ fuel : Nat, recursiveGroupSelect cycleSubgroups fuel 0 = none := by
  refine ⟨by decide, by decide, ?_⟩
  intro fuel
  exact (cycleGo_none fuel [0]).1

/-- C3: `repos delete` calls the project delete operation exactly on the
selected ids when both `--doit` and `--seriously` are set, and in the
other three flag combinations deletes nothing and logs every candidate as
a dry run, whatever `--quiet` says. -/
theorem delete_repos_requires_both_flags (repos : List Repo)
    (doit seriously quiet : Bool) :
    deletedIds (delete_repos repos doit seriously quiet)
      = (if doit && seriously then repos.map Repo.id else [])
    ∧ dryRunNames (delete_repos repos doit seriously quiet)
      = (if doit && seriously then [] else repos.map Repo.name) := by
  induction repos with
  | nil => cases doit <;> cases seriously <;> simp [delete_repos, deletedIds, dryRunNames]
  | cons r rs ih =>
    cases doit <;> cases seriously <;> cases quiet <;>
      simp_all [delete_repos, deletedIds, dryRunNames] <;>
      first
        | exact ih.1
        | exact ih.2

/-- C4: the claim that the `repos` selection followed by `list` outputs
exactly the regex-matching projects of all selected groups fails in the
multi-group case: the loop rebinds `projects` per group instead of
extending it, so with two selected groups holding matching projects `a`
and `b`, only the last group's `b` survives, while the specification's
reading keeps both. -/
theorem repos_selection_keeps_only_last_group :
    reposSelect (fun _ => true) [[⟨"a", "g1/a"⟩], [⟨"b", "g2/b"⟩]]
      = [⟨"b", "g2/b"⟩]
    ∧ reposSelectSpec (fun _ => true) [[⟨"a", "g1/a"⟩], [⟨"b", "g2/b"⟩]]
      = [⟨"a", "g1/a"⟩, ⟨"b", "g2/b"⟩]
    ∧ listReposListFormat
        (reposSelect (fun _ => true) [[⟨"a", "g1/a"⟩], [⟨"b", "g2/b"⟩]]) = ["b"]
    ∧ reposSelect (fun _ => true) [[⟨"a", "g1/a"⟩], [⟨"b", "g2/b"⟩]]
      ≠ reposSelectSpec (fun _ => true) [[⟨"a", "g1/a"⟩], [⟨"b", "g2/b"⟩]] := by
  refine ⟨by decide, by decide, by decide, by decide⟩

/-- Looking a key up right after `keyring.set_password` stored it finds
the stored value. -/
lemma keyringGet_keyringSet (kr : Keyring) (service user value : String) :
    keyringGet (keyringSet kr service user value) service user = some value := by
  simp [keyringGet, keyringSet]

/-- C10: when the keyring holds no password (or an empty one),
`Config.user_password` writes the freshly prompted password to the keyring
but returns `Secret(user_password)` built from the stale pre-prompt value
(the read-back lands in the unused `otp_secret` variable); constructing a
`Secret` from the stale `None` raises instead of returning. -/
theorem user_password_returns_stale_secret (kr : Keyring)
    (prompt service user : String)
    (h : keyringGet kr service user = none ∨ keyringGet kr service user = some "") :
    (user_password kr prompt service user).2
      = Secret.init (keyringGet kr service user)
    ∧ keyringGet (user_password kr prompt service user).1 service user = some prompt
    ∧ Secret.init none = Except.error PyError.attributeErrorNoneEncode := by
  refine ⟨?_, ?_, rfl⟩
  · unfold user_password
    rcases h with h | h <;> simp [h]
  · unfold user_password
    rcases h with h | h <;> simp [h, keyringGet_keyringSet]

/-- Witness for `user_password_returns_stale_secret`: an empty keyring
stores nothing for `gitlab.example:user_password` / `alice`, and the run
leaves the prompted password stored while raising from the `Secret`
constructor. -/
theorem user_password_returns_stale_secret_witness :
    (keyringGet [] "gitlab.example:user_password" "alice" = none
      ∨ keyringGet [] "gitlab.example:user_password" "alice" = some "")
    ∧ ((user_password [] "typed-pw" "gitlab.example:user_password" "alice").2
        = Secret.init (keyringGet [] "gitlab.example:user_password" "alice")
      ∧ keyringGet (user_password [] "typed-pw" "gitlab.example:user_password" "alice").1
          "gitlab.example:user_password" "alice" = some "typed-pw"
      ∧ Secret.init none = Except.error PyError.attributeErrorNoneEncode) :=
  ⟨Or.inl rfl,
   user_password_returns_stale_secret [] "typed-pw" "gitlab.example:user_password"
     "alice" (Or.inl rfl)⟩

/-- Closed form of `_do_login` when the credential submission is answered
with a redirect: one GET of the sign-in page and one credentials POST
carrying the csrf pair scraped from that page. -/
lemma doLogin_eq_redirect (c : GitlabUIClient) (r1 r2 : Response)
    (rest : List Response) (cd : Option (String × String)) (tr : List Request)
    (n : Nat) (h : r2.status = 302) :
    doLogin c ⟨r1 :: r2 :: rest, cd, tr, n⟩ =
      Except.ok ⟨rest, gitlab_get_csrf r1.metaTags,
        tr ++ [signInGetReq, credSubmitReq (gitlab_get_csrf r1.metaTags)], n + 1⟩ := by
  simp [doLogin, sessionRequest, h, signInGetReq, credSubmitReq]

/-- Closed form of `_do_login` when the credential submission is not
answered with a redirect and an OTP seed object is present: the OTP POST
carries the csrf pair scraped from the re-rendered page, and its status
decides between success and `ErrorGitlabLoginFailed`. -/
lemma doLogin_eq_otp (c : GitlabUIClient) (seed : String) (hc : c.otp = some seed)
    (r1 r2 r3 : Response) (rest : List Response) (cd : Option (String × String))
    (tr : List Request) (n : Nat) (h2 : ¬ r2.status = 302) :
    doLogin c ⟨r1 :: r2 :: r3 :: rest, cd, tr, n⟩ =
      (if r3.status = 302 then
        Except.ok ⟨rest, gitlab_get_csrf r2.metaTags,
          tr ++ [signInGetReq, credSubmitReq (gitlab_get_csrf r1.metaTags),
                 otpSubmitReq (gitlab_get_csrf r2.metaTags)], n + 1⟩
      else
        Except.error (UIError.loginFailedDespiteOtp,
          ⟨rest, gitlab_get_csrf r2.metaTags,
           tr ++ [signInGetReq, credSubmitReq (gitlab_get_csrf r1.metaTags),
                  otpSubmitReq (gitlab_get_csrf r2.metaTags)], n⟩)) := by
  by_cases h3 : r3.status = 302 <;>
    simp [doLogin, sessionRequest, h2, h3, hc, signInGetReq, credSubmitReq, otpSubmitReq]

/-- C5: on a scripted response sequence, `_do_login` authenticates in
exactly one submission when the credential POST is answered with a
redirect; in exactly two submissions (credentials, then the time-based
OTP) when the server first re-renders a page and then redirects; and when
the final submission is not redirected it raises `ErrorGitlabLoginFailed`
to the caller after those same two submissions, issuing no further
request. -/
theorem do_login_submission_counts (c : GitlabUIClient) (seed : String)
    (hc : c.otp = some seed) (r1 r2 r3 : Response) (rest : List Response)
    (cd : Option (String × String)) :
    (r2.status = 302 →
      doLogin c ⟨r1 :: r2 :: r3 :: rest, cd, [], 0⟩
        = Except.ok ⟨r3 :: rest, gitlab_get_csrf r1.metaTags,
            [signInGetReq, credSubmitReq (gitlab_get_csrf r1.metaTags)], 1⟩
      ∧ countSubmissions
          [signInGetReq, credSubmitReq (gitlab_get_csrf r1.metaTags)] = 1)
    ∧ (¬ r2.status = 302 → r3.status = 302 →
      doLogin c ⟨r1 :: r2 :: r3 :: rest, cd, [], 0⟩
        = Except.ok ⟨rest, gitlab_get_csrf r2.metaTags,
            [signInGetReq, credSubmitReq (gitlab_get_csrf r1.metaTags),
             otpSubmitReq (gitlab_get_csrf r2.metaTags)], 1⟩
      ∧ countSubmissions
          [signInGetReq, credSubmitReq (gitlab_get_csrf r1.metaTags),
           otpSubmitReq (gitlab_get_csrf r2.metaTags)] = 2)
    ∧ (¬ r2.status = 302 → ¬ r3.status = 302 →
      doLogin c ⟨r1 :: r2 :: r3 :: rest, cd, [], 0⟩
        = Except.error (UIError.loginFailedDespiteOtp,
            ⟨rest, gitlab_get_csrf r2.metaTags,
             [signInGetReq, credSubmitReq (gitlab_get_csrf r1.metaTags),
              otpSubmitReq (gitlab_get_csrf r2.metaTags)], 0⟩)
      ∧ countSubmissions
          [signInGetReq, credSubmitReq (gitlab_get_csrf r1.metaTags),
           otpSubmitReq (gitlab_get_csrf r2.metaTags)] = 2) := by
  refine ⟨fun h2 => ⟨?_, rfl⟩, fun h2 h3 => ⟨?_, rfl⟩, fun h2 h3 => ⟨?_, rfl⟩⟩
  · simpa using doLogin_eq_redirect c r1 r2 (r3 :: rest) cd [] 0 h2
  · simpa [h3] using doLogin_eq_otp c seed hc r1 r2 r3 rest cd [] 0 h2
  · simpa [h3] using doLogin_eq_otp c seed hc r1 r2 r3 rest cd [] 0 h2

/-- Witness for `do_login_submission_counts`: the configured example
client with script (sign-in page, re-rendered page, redirect) reaches the
two-submission conclusions concretely. -/
theorem do_login_submission_counts_witness :
    exampleClient.otp = some "seed"
    ∧ ((okPage.status = 302 →
        doLogin exampleClient ⟨[loginRenderedPage, okPage, redirectResponse], none, [], 0⟩
          = Except.ok ⟨[redirectResponse], gitlab_get_csrf loginRenderedPage.metaTags,
              [signInGetReq, credSubmitReq (gitlab_get_csrf loginRenderedPage.metaTags)], 1⟩
        ∧ countSubmissions
            [signInGetReq, credSubmitReq (gitlab_get_csrf loginRenderedPage.metaTags)] = 1)
      ∧ (¬ okPage.status = 302 → redirectResponse.status = 302 →
        doLogin exampleClient ⟨[loginRenderedPage, okPage, redirectResponse], none, [], 0⟩
          = Except.ok ⟨[], gitlab_get_csrf okPage.metaTags,
              [signInGetReq, credSubmitReq (gitlab_get_csrf loginRenderedPage.metaTags),
               otpSubmitReq (gitlab_get_csrf okPage.metaTags)], 1⟩
        ∧ countSubmissions
            [signInGetReq, credSubmitReq (gitlab_get_csrf loginRenderedPage.metaTags),
             otpSubmitReq (gitlab_get_csrf okPage.metaTags)] = 2)
      ∧ (¬ okPage.status = 302 → ¬ redirectResponse.status = 302 →
        doLogin exampleClient ⟨[loginRenderedPage, okPage, redirectResponse], none, [], 0⟩
          = Except.error (UIError.loginFailedDespiteOtp,
              ⟨[], gitlab_get_csrf okPage.metaTags,
               [signInGetReq, credSubmitReq (gitlab_get_csrf loginRenderedPage.metaTags),
                otpSubmitReq (gitlab_get_csrf okPage.metaTags)], 0⟩)
        ∧ countSubmissions
            [signInGetReq, credSubmitReq (gitlab_get_csrf loginRenderedPage.metaTags),
             otpSubmitReq (gitlab_get_csrf okPage.metaTags)] = 2)) :=
  ⟨rfl, do_login_submission_counts exampleClient "seed" rfl loginRenderedPage okPage
    redirectResponse [] none⟩

/-- Submission counts add over concatenated traces. -/
lemma countSubmissions_append (a b : List Request) :
    countSubmissions (a ++ b) = countSubmissions a + countSubmissions b := by
  simp [countSubmissions, List.filter_append]

/-- Every error raise reachable in `_do_login` with a TOTP object present
is either the `ErrorGitlabLoginFailed` after the OTP submission or the
modelling artifact of an exhausted script, and the state at the raise has
gained at most the two form submissions. -/
lemma doLogin_error_shape (c : GitlabUIClient) (seed : String)
    (hc : c.otp = some seed) (s : UIState) (e : UIError) (s' : UIState)
    (h : doLogin c s = Except.error (e, s')) :
    (e = UIError.loginFailedDespiteOtp ∨ e = UIError.scriptExhausted)
    ∧ countSubmissions s'.trace ≤ countSubmissions s.trace + 2 := by
  obtain ⟨script, cd, tr, n⟩ := s
  rcases script with _ | ⟨r1, script⟩
  · simp [doLogin, sessionRequest] at h
    obtain ⟨he, hs⟩ := h
    subst he; subst hs
    exact ⟨Or.inr rfl, by omega⟩
  rcases script with _ | ⟨r2, script⟩
  · simp [doLogin, sessionRequest] at h
    obtain ⟨he, hs⟩ := h
    subst he; subst hs
    refine ⟨Or.inr rfl, ?_⟩
    simp [countSubmissions_append, countSubmissions, signInGetReq]
  by_cases h2 : r2.status = 302
  · rw [doLogin_eq_redirect c r1 r2 script cd tr n h2] at h
    simp at h
  rcases script with _ | ⟨r3, script⟩
  · simp [doLogin, sessionRequest, h2, hc] at h
    obtain ⟨he, hs⟩ := h
    subst he; subst hs
    refine ⟨Or.inr rfl, ?_⟩
    simp [countSubmissions_append, countSubmissions, signInGetReq, credSubmitReq]
  rw [doLogin_eq_otp c seed hc r1 r2 r3 script cd tr n h2] at h
  by_cases h3 : r3.status = 302
  · simp [h3] at h
  simp [h3] at h
  obtain ⟨he, hs⟩ := h
  subst he; subst hs
  refine ⟨Or.inl rfl, ?_⟩
  simp [countSubmissions_append, countSubmissions, signInGetReq, credSubmitReq,
    otpSubmitReq]

/-- C6 (amended): for a client built by `__init__`, every error `_do_login`
raises is the `ErrorGitlabLoginFailed` of a rejected OTP submission (or
the scripted-environment artifact of running out of responses), reported
with no retry — the raise state carries at most the two submissions; the
`OTP required but not configured` raise is unreachable because `__init__`
always wraps the seed in a TOTP object, so `self.otp` is never `None`. -/
theorem login_failures_fatal_otp_guard_dead (server u p seed : String)
    (s : UIState) (e : UIError) (s' : UIState)
    (h : doLogin (GitlabUIClient.new server u p seed) s = Except.error (e, s')) :
    e ≠ UIError.loginFailedOtpNotSupplied
    ∧ (e = UIError.loginFailedDespiteOtp ∨ e = UIError.scriptExhausted)
    ∧ countSubmissions s'.trace ≤ countSubmissions s.trace + 2 := by
  obtain ⟨hcls, hcount⟩ :=
    doLogin_error_shape (GitlabUIClient.new server u p seed) seed rfl s e s' h
  refine ⟨?_, hcls, hcount⟩
  rcases hcls with h' | h' <;> simp [h']

/-- Witness for `login_failures_fatal_otp_guard_dead`: a concrete run in
which neither submission is redirected raises `loginFailedDespiteOtp`. -/
theorem login_failures_fatal_otp_guard_dead_witness :
    doLogin (GitlabUIClient.new "https://example.com" "user" "pw" "seed")
        ⟨[loginRenderedPage, okPage, okPage], none, [], 0⟩
      = Except.error (UIError.loginFailedDespiteOtp,
          ⟨[], none, [signInGetReq, credSubmitReq none, otpSubmitReq none], 0⟩)
    ∧ (UIError.loginFailedDespiteOtp ≠ UIError.loginFailedOtpNotSupplied
      ∧ (UIError.loginFailedDespiteOtp = UIError.loginFailedDespiteOtp
        ∨ UIError.loginFailedDespiteOtp = UIError.scriptExhausted)
      ∧ countSubmissions [signInGetReq, credSubmitReq none, otpSubmitReq none]
          ≤ countSubmissions ([] : List Request) + 2) :=
  ⟨rfl,
   login_failures_fatal_otp_guard_dead "https://example.com" "user" "pw" "seed"
     ⟨[loginRenderedPage, okPage, okPage], none, [], 0⟩
     UIError.loginFailedDespiteOtp
     ⟨[], none, [signInGetReq, credSubmitReq none, otpSubmitReq none], 0⟩
     rfl⟩

/-- C6 (counterexample): even when no real OTP seed is configured (an
empty seed string), `__init__` still builds a TOTP object, so the `OTP
required but not configured` branch does not fire; a run in which the
server demands an OTP ends in the `despite OTP step` error instead. -/
theorem otp_not_configured_branch_unreachable_cex :
    (GitlabUIClient.new "https://example.com" "user" "pw" "").otp = some ""
    ∧ loginErr (doLogin (GitlabUIClient.new "https://example.com" "user" "pw" "")
        ⟨[loginRenderedPage, okPage, okPage], none, [], 0⟩)
      = some UIError.loginFailedDespiteOtp
    ∧ UIError.loginFailedDespiteOtp ≠ UIError.loginFailedOtpNotSupplied :=
  ⟨rfl, rfl, by decide⟩

/-- C1: the claim "the client performs at most one login-and-retry cycle
per caller fetch" fails on the code: `_get` loops `while not
self._check_logged_in(r)`, so when the retried fetch still renders the
login page the client performs a second full login traversal and a third
fetch of the caller's URL within a single `_get` call. -/
theorem get_retries_twice_on_persistent_login_page :
    uiGet exampleClient "https://example.com/x" 7
      ⟨[loginRenderedPage, okPage, redirectResponse, loginRenderedPage, okPage,
        redirectResponse, okPage], none, [], 0⟩
      = Except.ok (okPage,
          ⟨[], none,
           [⟨"GET", "https://example.com/x", none, FormKind.noForm⟩,
            signInGetReq, credSubmitReq none,
            ⟨"GET", "https://example.com/x", none, FormKind.noForm⟩,
            signInGetReq, credSubmitReq none,
            ⟨"GET", "https://example.com/x", none, FormKind.noForm⟩], 2⟩)
    ∧ fetchLogins (uiGet exampleClient "https://example.com/x" 7
        ⟨[loginRenderedPage, okPage, redirectResponse, loginRenderedPage, okPage,
          redirectResponse, okPage], none, [], 0⟩) = some 2 :=
  ⟨rfl, rfl⟩

/-- If the scanning fold ends with a param component, either it started
with one or some scanned tag carried `name="csrf-param"` with a content
attribute. -/
lemma csrfFold_param (tags : List MetaTag) : ∀ acc : Option String × Option String,
    (tags.foldl csrfStep acc).1 ≠ none →
    acc.1 ≠ none ∨ ∃ t ∈ tags, t.nameAttr = some "csrf-param" ∧ t.contentAttr ≠ none := by
  induction tags with
  | nil => intro acc h; exact Or.inl h
  | cons t ts ih =>
    intro acc h
    rw [List.foldl_cons] at h
    rcases ih (csrfStep acc t) h with h' | ⟨t', ht', hn, hcc⟩
    · rcases hna : t.nameAttr with _ | n
      · rw [csrfStep, hna] at h'
        exact Or.inl h'
      rcases hca : t.contentAttr with _ | cc
      · rw [csrfStep, hna, hca] at h'
        exact Or.inl h'
      by_cases hp : n = "csrf-param"
      · exact Or.inr ⟨t, List.mem_cons_self t ts, by rw [hna, hp], by simp [hca]⟩
      · rw [csrfStep, hna, hca] at h'
        simp only [if_neg hp] at h'
        exact Or.inl h'
    · exact Or.inr ⟨t', List.mem_cons_of_mem t ht', hn, hcc⟩

/-- If the scanning fold ends with a token component, either it started
with one or some scanned tag carried `name="csrf-token"` with a content
attribute. -/
lemma csrfFold_token (tags : List MetaTag) : ∀ acc : Option String × Option String,
    (tags.foldl csrfStep acc).2 ≠ none →
    acc.2 ≠ none ∨ ∃ t ∈ tags, t.nameAttr = some "csrf-token" ∧ t.contentAttr ≠ none := by
  induction tags with
  | nil => intro acc h; exact Or.inl h
  | cons t ts ih =>
    intro acc h
    rw [List.foldl_cons] at h
    rcases ih (csrfStep acc t) h with h' | ⟨t', ht', hn, hcc⟩
    · rcases hna : t.nameAttr with _ | n
      · rw [csrfStep, hna] at h'
        exact Or.inl h'
      rcases hca : t.contentAttr with _ | cc
      · rw [csrfStep, hna, hca] at h'
        exact Or.inl h'
      by_cases hp : n = "csrf-token"
      · exact Or.inr ⟨t, List.mem_cons_self t ts, by rw [hna, hp], by simp [hca]⟩
      · rw [csrfStep, hna, hca] at h'
        simp only [if_neg hp] at h'
        exact Or.inl h'
    · exact Or.inr ⟨t', List.mem_cons_of_mem t ht', hn, hcc⟩

/-- `gitlab_get_csrf` yields a pair only when a complete `csrf-param` tag
and a complete `csrf-token` tag were both scanned. -/
lemma gitlab_get_csrf_needs_both (tags : List MetaTag)
    (h : gitlab_get_csrf tags ≠ none) :
    (∃ t ∈ tags, t.nameAttr = some "csrf-param" ∧ t.contentAttr ≠ none)
    ∧ (∃ t ∈ tags, t.nameAttr = some "csrf-token" ∧ t.contentAttr ≠ none) := by
  rw [gitlab_get_csrf] at h
  rcases hfold : csrfScan tags with ⟨a, b⟩
  rw [hfold] at h
  rcases a with _ | pa
  · simp at h
  rcases b with _ | tb
  · simp at h
  rw [csrfScan] at hfold
  constructor
  · rcases csrfFold_param tags (none, none)
        (by rw [hfold]; exact fun hc => Option.noConfusion hc) with h' | h'
    · exact absurd rfl h'
    · exact h'
  · rcases csrfFold_token tags (none, none)
        (by rw [hfold]; exact fun hc => Option.noConfusion hc) with h' | h'
    · exact absurd rfl h'
    · exact h'

/-- `_request` rescans every response it receives: the stored pair after a
wrapped request is the scrape of that response, and the request itself is
appended to the trace without form data. -/
lemma uiRequest_ok (method url : String) (s : UIState) (r : Response)
    (s' : UIState) (h : uiRequest method url s = Except.ok (r, s')) :
    s'.csrf_data = gitlab_get_csrf r.metaTags
    ∧ s'.trace = s.trace ++ [⟨method, url, none, FormKind.noForm⟩]
    ∧ s'.logins = s.logins := by
  rcases hs : s.script with _ | ⟨r0, rest⟩ <;>
    simp [uiRequest, sessionRequest, hs] at h
  obtain ⟨hr, hs'⟩ := h
  subst hr; subst hs'
  exact ⟨rfl, rfl, rfl⟩

/-- C7 (amended): responses received through the `_request` wrapper and
the two pages `_do_login` scrapes are scanned for the csrf meta tags; a
pair is stored only when both a complete `csrf-param` tag and a complete
`csrf-token` tag are present in the scanned response (otherwise the
stored pair is empty, latest scanned response winning), and the currently
stored pair is attached as a form field to each state-changing POST the
client makes — the credentials POST carries the sign-in page's pair, the
OTP POST carries the re-rendered page's pair.  (The unamended claim that
every received response is scanned is refuted by
the counterexample: redirect responses returned by the two submissions,
and the raw settings refetch, are not scanned.) -/
theorem csrf_scan_and_attachment (tags : List MetaTag) (method url : String)
    (s : UIState) (r : Response) (s' : UIState) (c : GitlabUIClient)
    (seed : String) (hc : c.otp = some seed) (r1 r2 r3 : Response)
    (rest : List Response) (cd : Option (String × String)) (tr : List Request)
    (n : Nat) :
    (gitlab_get_csrf tags ≠ none →
      (∃ t ∈ tags, t.nameAttr = some "csrf-param" ∧ t.contentAttr ≠ none)
      ∧ (∃ t ∈ tags, t.nameAttr = some "csrf-token" ∧ t.contentAttr ≠ none))
    ∧ (uiRequest method url s = Except.ok (r, s') →
      s'.csrf_data = gitlab_get_csrf r.metaTags)
    ∧ (r2.status = 302 →
      doLogin c ⟨r1 :: r2 :: rest, cd, tr, n⟩
        = Except.ok ⟨rest, gitlab_get_csrf r1.metaTags,
            tr ++ [signInGetReq, credSubmitReq (gitlab_get_csrf r1.metaTags)],
            n + 1⟩)
    ∧ (¬ r2.status = 302 → r3.status = 302 →
      doLogin c ⟨r1 :: r2 :: r3 :: rest, cd, tr, n⟩
        = Except.ok ⟨rest, gitlab_get_csrf r2.metaTags,
            tr ++ [signInGetReq, credSubmitReq (gitlab_get_csrf r1.metaTags),
                   otpSubmitReq (gitlab_get_csrf r2.metaTags)], n + 1⟩) := by
  refine ⟨gitlab_get_csrf_needs_both tags, ?_, ?_, ?_⟩
  · intro h
    exact (uiRequest_ok method url s r s' h).1
  · intro h2
    exact doLogin_eq_redirect c r1 r2 rest cd tr n h2
  · intro h2 h3
    simpa [h3] using doLogin_eq_otp c seed hc r1 r2 r3 rest cd tr n h2

/-- Witness for `csrf_scan_and_attachment`: concrete tags, a concrete
wrapped request, and a concrete login script instantiate every part. -/
theorem csrf_scan_and_attachment_witness :
    (gitlab_get_csrf signinPageWithCsrf.metaTags ≠ none →
      (∃ t ∈ signinPageWithCsrf.metaTags,
        t.nameAttr = some "csrf-param" ∧ t.contentAttr ≠ none)
      ∧ (∃ t ∈ signinPageWithCsrf.metaTags,
        t.nameAttr = some "csrf-token" ∧ t.contentAttr ≠ none))
    ∧ (uiRequest "GET" "https://example.com/x" ⟨[signinPageWithCsrf], none, [], 0⟩
        = Except.ok (signinPageWithCsrf,
            ⟨[], some ("P1", "T1"),
             [⟨"GET", "https://example.com/x", none, FormKind.noForm⟩], 0⟩) →
      (⟨[], some ("P1", "T1"),
        [⟨"GET", "https://example.com/x", none, FormKind.noForm⟩], 0⟩ : UIState).csrf_data
        = gitlab_get_csrf signinPageWithCsrf.metaTags)
    ∧ (redirectResponse.status = 302 →
      doLogin exampleClient ⟨[signinPageWithCsrf, redirectResponse], none, [], 0⟩
        = Except.ok ⟨[], gitlab_get_csrf signinPageWithCsrf.metaTags,
            [] ++ [signInGetReq,
                   credSubmitReq (gitlab_get_csrf signinPageWithCsrf.metaTags)], 0 + 1⟩)
    ∧ (¬ redirectResponse.status = 302 → redirectResponse.status = 302 →
      doLogin exampleClient
          ⟨[signinPageWithCsrf, redirectResponse, redirectResponse], none, [], 0⟩
        = Except.ok ⟨[], gitlab_get_csrf redirectResponse.metaTags,
            [] ++ [signInGetReq,
                   credSubmitReq (gitlab_get_csrf signinPageWithCsrf.metaTags),
                   otpSubmitReq (gitlab_get_csrf redirectResponse.metaTags)], 0 + 1⟩) :=
  csrf_scan_and_attachment signinPageWithCsrf.metaTags "GET" "https://example.com/x"
    ⟨[signinPageWithCsrf], none, [], 0⟩ signinPageWithCsrf
    ⟨[], some ("P1", "T1"),
     [⟨"GET", "https://example.com/x", none, FormKind.noForm⟩], 0⟩
    exampleClient "seed" rfl signinPageWithCsrf redirectResponse redirectResponse
    [] none [] 0

/-- C7 (counterexample): the redirect answering the credential submission
is a received response that is not scanned — it carries a fresh complete
csrf pair `(P2, T2)`, yet after the login the stored pair is still the
sign-in page's `(P1, T1)`, so "every response is scanned, most recent
response wins" fails on the code. -/
theorem redirect_response_csrf_not_scanned_cex :
    doLogin exampleClient ⟨[signinPageWithCsrf, redirectWithCsrf], none, [], 0⟩
      = Except.ok ⟨[], some ("P1", "T1"),
          [signInGetReq, credSubmitReq (some ("P1", "T1"))], 1⟩
    ∧ gitlab_get_csrf redirectWithCsrf.metaTags = some ("P2", "T2")
    ∧ some (("P1", "T1") : String × String) ≠ some ("P2", "T2") :=
  ⟨rfl, rfl, by decide⟩

/-- `clone-organization` never emits a clone into a path that existed when
the repo was considered: existing paths are only ever reported, and clones
only add fresh paths. -/
lemma orgCloneRepos_no_clone (p url : String) :
    ∀ (rs : List (String × String)) (fs : List String), p ∈ fs →
      CloneEffect.cloneInto p url ∉ (orgCloneRepos fs rs).2 := by
  intro rs
  induction rs with
  | nil => intro fs hp; simp [orgCloneRepos]
  | cons nl rest ih =>
    intro fs hp
    obtain ⟨name, link⟩ := nl
    by_cases hmem : name ∈ fs
    · simp only [orgCloneRepos, if_pos hmem, List.mem_cons]
      rintro (h | h)
      · exact CloneEffect.noConfusion h
      · exact ih fs hp h
    · simp only [orgCloneRepos, if_neg hmem, List.mem_cons]
      rintro (h | h)
      · obtain ⟨hp', _⟩ := CloneEffect.cloneInto.inj h
        exact hmem (hp' ▸ hp)
      · exact ih (name :: fs) (List.mem_cons_of_mem name hp) h

/-- The per-project loop of `organization clone` never emits a clone into
a path that was already present. -/
lemma cloneProjects_no_clone (p url dir : String) :
    ∀ (ps : List (String × String)) (fs : List String), p ∈ fs →
      CloneEffect.cloneInto p url ∉ (cloneProjects dir fs ps).2 := by
  intro ps
  induction ps with
  | nil => intro fs hp; simp [cloneProjects]
  | cons nl rest ih =>
    intro fs hp
    obtain ⟨name, link⟩ := nl
    by_cases hmem : pathJoin dir name ∈ fs
    · simp only [cloneProjects, if_pos hmem, List.mem_cons]
      rintro (h | h)
      · exact CloneEffect.noConfusion h
      · exact ih fs hp h
    · simp only [cloneProjects, if_neg hmem, List.mem_cons]
      rintro (h | h)
      · obtain ⟨hp', _⟩ := CloneEffect.cloneInto.inj h
        exact hmem (hp' ▸ hp)
      · exact ih (pathJoin dir name :: fs) (List.mem_cons_of_mem _ hp) h

/-- The per-project loop only adds paths to the filesystem. -/
lemma cloneProjects_mem (p dir : String) :
    ∀ (ps : List (String × String)) (fs : List String), p ∈ fs →
      p ∈ (cloneProjects dir fs ps).1 := by
  intro ps
  induction ps with
  | nil => intro fs hp; simpa [cloneProjects] using hp
  | cons nl rest ih =>
    intro fs hp
    obtain ⟨name, link⟩ := nl
    by_cases hmem : pathJoin dir name ∈ fs
    · simpa only [cloneProjects, if_pos hmem] using ih fs hp
    · simpa only [cloneProjects, if_neg hmem]
        using ih (pathJoin dir name :: fs) (List.mem_cons_of_mem _ hp)

/-- The per-group loop of `organization clone` never emits a clone into a
path that was already present. -/
lemma cloneGroups_no_clone (p url output_dir root : String) :
    ∀ (gs : List GroupFixture) (fs : List String), p ∈ fs →
      CloneEffect.cloneInto p url ∉ (cloneGroups output_dir root fs gs).2 := by
  intro gs
  induction gs with
  | nil => intro fs hp; simp [cloneGroups]
  | cons g rest ih =>
    intro fs hp
    simp only [cloneGroups, List.mem_cons, List.mem_append]
    rintro (h | h | h)
    · exact CloneEffect.noConfusion h
    · exact cloneProjects_no_clone p url _ g.projects _ (List.mem_cons_of_mem _ hp) h
    · exact ih _ (cloneProjects_mem p _ g.projects _ (List.mem_cons_of_mem _ hp)) h

/-- C8: neither `clone-organization` nor `organization clone` invokes the
clone operation for a repository whose derived destination path already
exists: the only effect ever recorded for such a path is the
found-existing report, and the clone operation is never called on it
whatever the remote state (the guard is evaluated before any remote
interaction). -/
theorem clone_skips_existing_destination (fs : List String)
    (projects : List (String × String)) (output_dir root : String)
    (groups : List GroupFixture) (p url : String) (h : p ∈ fs) :
    CloneEffect.cloneInto p url ∉ (gitlab_org_clone fs projects).2
    ∧ CloneEffect.cloneInto p url ∉ (cloneCommand output_dir root fs groups).2 := by
  constructor
  · exact orgCloneRepos_no_clone p url projects fs h
  · simp only [cloneCommand, List.mem_cons]
    rintro (h' | h')
    · exact CloneEffect.noConfusion h'
    · exact cloneGroups_no_clone p url output_dir root groups (output_dir :: fs)
        (List.mem_cons_of_mem _ h) h'

/-- Witness for `clone_skips_existing_destination`: with `repo1` already
on disk, neither command clones into it. -/
theorem clone_skips_existing_destination_witness :
    ("repo1" : String) ∈ ["repo1"]
    ∧ (CloneEffect.cloneInto "repo1" "http://u"
        ∉ (gitlab_org_clone ["repo1"] [("repo1", "http://u")]).2
      ∧ CloneEffect.cloneInto "repo1" "http://u"
        ∉ (cloneCommand "out" "org" ["repo1"] [⟨"org", [("x", "u2")]⟩]).2) :=
  ⟨by decide,
   clone_skips_existing_destination ["repo1"] [("repo1", "http://u")] "out" "org"
     [⟨"org", [("x", "u2")]⟩] "repo1" "http://u" (by decide)⟩

/-- A raw session request appends exactly the issued request to the
trace. -/
lemma sessionRequest_ok (kind : FormKind) (method url : String)
    (cs : Option (String × String)) (s : UIState) (r : Response) (s' : UIState)
    (h : sessionRequest kind method url cs s = Except.ok (r, s')) :
    s'.trace = s.trace ++ [⟨method, url, cs, kind⟩] := by
  rcases hs : s.script with _ | ⟨r0, rest⟩ <;>
    simp [sessionRequest, hs] at h
  obtain ⟨hr, hs'⟩ := h
  subst hs'
  rfl

/-- Every request `_do_login` adds to the trace targets the hard-coded
sign-in URL, whatever the client's configured base URL. -/
lemma doLogin_ok_shape (c : GitlabUIClient) (s s1 : UIState)
    (h : doLogin c s = Except.ok s1) :
    ∃ d, s1.trace = s.trace ++ d ∧ ∀ q ∈ d, q.url = signInUrl := by
  obtain ⟨script, cd, tr, n⟩ := s
  rcases script with _ | ⟨r1, script⟩
  · simp [doLogin, sessionRequest] at h
  rcases script with _ | ⟨r2, script⟩
  · simp [doLogin, sessionRequest] at h
  by_cases h2 : r2.status = 302
  · rw [doLogin_eq_redirect c r1 r2 script cd tr n h2] at h
    obtain rfl : _ = s1 := Except.ok.inj h
    refine ⟨[signInGetReq, credSubmitReq (gitlab_get_csrf r1.metaTags)], rfl, ?_⟩
    intro q hq
    simp only [List.mem_cons, List.not_mem_nil, or_false] at hq
    rcases hq with rfl | rfl
    · rfl
    · rfl
  rcases hcn : c.otp with _ | seed
  · simp [doLogin, sessionRequest, h2, hcn] at h
  rcases script with _ | ⟨r3, script⟩
  · simp [doLogin, sessionRequest, h2, hcn] at h
  rw [doLogin_eq_otp c seed hcn r1 r2 r3 script cd tr n h2] at h
  by_cases h3 : r3.status = 302
  · rw [if_pos h3] at h
    obtain rfl : _ = s1 := Except.ok.inj h
    refine ⟨[signInGetReq, credSubmitReq (gitlab_get_csrf r1.metaTags),
             otpSubmitReq (gitlab_get_csrf r2.metaTags)], rfl, ?_⟩
    intro q hq
    simp only [List.mem_cons, List.not_mem_nil, or_false] at hq
    rcases hq with rfl | rfl | rfl
    · rfl
    · rfl
    · rfl
  · rw [if_neg h3] at h
    exact absurd h (fun hx => Except.noConfusion hx)

/-- The `_get` relogin loop only ever adds requests for the caller's URL
or the sign-in URL to the trace. -/
lemma uiGetLoop_ok_shape (c : GitlabUIClient) (url : String) :
    ∀ (fuel : Nat) (r : Response) (s : UIState) (v : Response) (s' : UIState),
      uiGetLoop c url fuel r s = Except.ok (v, s') →
      ∃ d, s'.trace = s.trace ++ d ∧ ∀ q ∈ d, q.url = url ∨ q.url = signInUrl := by
  intro fuel
  induction fuel with
  | zero =>
    intro r s v s' h
    by_cases hr : checkLoggedIn r
    · simp only [uiGetLoop, if_pos hr] at h
      obtain ⟨hv, hs⟩ := Prod.mk.inj (Except.ok.inj h)
      subst hs
      exact ⟨[], by simp, by simp⟩
    · simp [uiGetLoop, hr] at h
  | succ n ih =>
    intro r s v s' h
    by_cases hr : checkLoggedIn r
    · simp only [uiGetLoop, if_pos hr] at h
      obtain ⟨hv, hs⟩ := Prod.mk.inj (Except.ok.inj h)
      subst hs
      exact ⟨[], by simp, by simp⟩
    · simp only [uiGetLoop, if_neg hr] at h
      split at h
      · exact Except.noConfusion h
      rename_i s1 hdl
      split at h
      · exact Except.noConfusion h
      rename_i r2 s2 hur
      obtain ⟨d, hd, hdurl⟩ := ih r2 s2 v s' h
      obtain ⟨d1, hd1, hd1url⟩ := doLogin_ok_shape c s s1 hdl
      obtain ⟨_, htr, _⟩ := uiRequest_ok "GET" url s1 r2 s2 hur
      refine ⟨d1 ++ [⟨"GET", url, none, FormKind.noForm⟩] ++ d, ?_, ?_⟩
      · rw [hd, htr, hd1]
        simp [List.append_assoc]
      · intro q hq
        simp only [List.mem_append, List.mem_singleton] at hq
        rcases hq with (hq | hq) | hq
        · exact Or.inr (hd1url q hq)
        · subst hq
          exact Or.inl rfl
        · exact hdurl q hq

/-- The second (raw) relogin loop of `list_repository_mirrors` likewise
only adds requests for the settings URL or the sign-in URL. -/
lemma mirrorLoop_ok_shape (c : GitlabUIClient) (url : String) :
    ∀ (fuel : Nat) (r : Response) (s : UIState) (v : Option String) (s' : UIState),
      mirrorLoop c url fuel r s = Except.ok (v, s') →
      ∃ d, s'.trace = s.trace ++ d ∧ ∀ q ∈ d, q.url = url ∨ q.url = signInUrl := by
  intro fuel
  induction fuel with
  | zero =>
    intro r s v s' h
    by_cases hr : checkLoggedIn r
    · simp only [mirrorLoop, if_pos hr] at h
      obtain ⟨hv, hs⟩ := Prod.mk.inj (Except.ok.inj h)
      subst hs
      exact ⟨[], by simp, by simp⟩
    · simp [mirrorLoop, hr] at h
  | succ n ih =>
    intro r s v s' h
    by_cases hr : checkLoggedIn r
    · simp only [mirrorLoop, if_pos hr] at h
      obtain ⟨hv, hs⟩ := Prod.mk.inj (Except.ok.inj h)
      subst hs
      exact ⟨[], by simp, by simp⟩
    · simp only [mirrorLoop, if_neg hr] at h
      split at h
      · exact Except.noConfusion h
      rename_i s1 hdl
      split at h
      · exact Except.noConfusion h
      rename_i r2 s2 hsr
      obtain ⟨d, hd, hdurl⟩ := ih r2 s2 v s' h
      obtain ⟨d1, hd1, hd1url⟩ := doLogin_ok_shape c s s1 hdl
      have htr := sessionRequest_ok FormKind.noForm "GET" url none s1 r2 s2 hsr
      refine ⟨d1 ++ [⟨"GET", url, none, FormKind.noForm⟩] ++ d, ?_, ?_⟩
      · rw [hd, htr, hd1]
        simp [List.append_assoc]
      · intro q hq
        simp only [List.mem_append, List.mem_singleton] at hq
        rcases hq with (hq | hq) | hq
        · exact Or.inr (hd1url q hq)
        · subst hq
          exact Or.inl rfl
        · exact hdurl q hq

/-- C9: in a successful `list_repository_mirrors` run started from an
empty trace, the first request issued is the settings-page GET built from
the configured base URL, and every request of the run targets either that
settings URL or the sign-in URL — which is the hard-coded literal
`https://gitlab.com/users/sign_in`, independent of the configured base
URL, for every login-flow request (initial sign-in fetch, credential
submission, OTP submission). -/
theorem login_targets_fixed_url_settings_from_base (c : GitlabUIClient)
    (repo : String) (f1 f2 : Nat) (script : List Response)
    (cd : Option (String × String)) (v : Option String) (s' : UIState)
    (h : list_repository_mirrors c repo f1 f2 ⟨script, cd, [], 0⟩
      = Except.ok (v, s')) :
    signInUrl = "https://gitlab.com/users/sign_in"
    ∧ settingsUrl c repo = c.base_url ++ "/" ++ repo ++ "/settings/repository"
    ∧ (∀ q ∈ s'.trace, q.url = settingsUrl c repo ∨ q.url = signInUrl)
    ∧ s'.trace.head?
      = some ⟨"GET", settingsUrl c repo, none, FormKind.noForm⟩ := by
  simp only [list_repository_mirrors] at h
  rcases hug : uiGet c (settingsUrl c repo) f1 ⟨script, cd, [], 0⟩ with e | rs1
  · rw [hug] at h
    exact absurd h (fun hx => Except.noConfusion hx)
  obtain ⟨r, s1⟩ := rs1
  rw [hug] at h
  simp only [uiGet] at hug
  rcases hur : uiRequest "GET" (settingsUrl c repo) ⟨script, cd, [], 0⟩ with e | rsA
  · rw [hur] at hug
    exact absurd hug (fun hx => Except.noConfusion hx)
  obtain ⟨rA, sA⟩ := rsA
  rw [hur] at hug
  obtain ⟨_, htrA, _⟩ :=
    uiRequest_ok "GET" (settingsUrl c repo) ⟨script, cd, [], 0⟩ rA sA hur
  obtain ⟨d1, hd1, hd1url⟩ :=
    uiGetLoop_ok_shape c (settingsUrl c repo) f1 rA sA r s1 hug
  obtain ⟨d2, hd2, hd2url⟩ :=
    mirrorLoop_ok_shape c (settingsUrl c repo) f2 r s1 v s' h
  have htrace : s'.trace
      = ⟨"GET", settingsUrl c repo, none, FormKind.noForm⟩ :: (d1 ++ d2) := by
    rw [hd2, hd1, htrA]
    simp
  refine ⟨rfl, rfl, ?_, ?_⟩
  · intro q hq
    rw [htrace] at hq
    rcases List.mem_cons.mp hq with rfl | hq'
    · exact Or.inl rfl
    · rcases List.mem_append.mp hq' with hq' | hq'
      · exact hd1url q hq'
      · exact hd2url q hq'
  · rw [htrace]
    rfl

/-- Witness for `login_targets_fixed_url_settings_from_base`: a run whose
single scripted response is already logged in issues exactly the
settings-page GET. -/
theorem login_targets_fixed_url_settings_from_base_witness :
    list_repository_mirrors exampleClient "grp/repo" 1 1 ⟨[okPage], none, [], 0⟩
      = Except.ok (none,
          ⟨[], none,
           [⟨"GET", "https://example.com/grp/repo/settings/repository", none,
             FormKind.noForm⟩], 0⟩)
    ∧ (signInUrl = "https://gitlab.com/users/sign_in"
      ∧ settingsUrl exampleClient "grp/repo"
        = exampleClient.base_url ++ "/" ++ "grp/repo" ++ "/settings/repository"
      ∧ (∀ q ∈ (⟨[], none,
            [⟨"GET", "https://example.com/grp/repo/settings/repository", none,
              FormKind.noForm⟩], 0⟩ : UIState).trace,
          q.url = settingsUrl exampleClient "grp/repo" ∨ q.url = signInUrl)
      ∧ (⟨[], none,
          [⟨"GET", "https://example.com/grp/repo/settings/repository", none,
            FormKind.noForm⟩], 0⟩ : UIState).trace.head?
        = some ⟨"GET", settingsUrl exampleClient "grp/repo", none,
            FormKind.noForm⟩) :=
  ⟨rfl,
   login_targets_fixed_url_settings_from_base exampleClient "grp/repo" 1 1
     [okPage] none none
     ⟨[], none,
      [⟨"GET", "https://example.com/grp/repo/settings/repository", none,
        FormKind.noForm⟩], 0⟩ rfl⟩

end GitlabTools
